import Mathlib

/-
  Verification development for the ADSimPeaks areaDetector driver.

  The embedding below follows the C++ sources:
  - ADSimPeaksPeak.cpp : the peak-shape kernel library (pure functions),
  - ADSimPeaks.cpp     : the frame compositor (computeDataT), the
                         writeInt32/writeFloat64 parameter handlers and the
                         acquisition state machine.

  EPICS float64 values are modelled as real numbers; epicsInt32 values as
  integers; the C++ cast static_cast<epicsInt32>(double) as truncation
  toward zero.
-/

namespace ADSimPeaks

noncomputable section

/-- Constant used to test for 0.0 (ADSimPeaksPeak.cpp line 40). -/
def s_zeroCheck : ℝ := 1e-12

/-- Constant 2.0*sqrt(2.0*log(2.0)) as the precomputed double literal
(ADSimPeaksPeak.cpp line 42). -/
def s_2s2l2 : ℝ := 2.3548200450309493

/-- Constant sqrt(2.0*M_PI) as the precomputed double literal
(ADSimPeaksPeak.cpp line 44). -/
def s_s2pi : ℝ := 2.5066282746310002

/-- Constant 2.0*log(2.0) as the precomputed double literal
(ADSimPeaksPeak.cpp line 46). -/
def s_2l2 : ℝ := 1.3862943611198906

/-- Pseudo-Voigt eta polynomial constant (ADSimPeaksPeak.cpp line 48). -/
def s_pv_p1 : ℝ := 2.69269

/-- Pseudo-Voigt eta polynomial constant (ADSimPeaksPeak.cpp line 49). -/
def s_pv_p2 : ℝ := 2.42843

/-- Pseudo-Voigt eta polynomial constant (ADSimPeaksPeak.cpp line 50). -/
def s_pv_p3 : ℝ := 4.47163

/-- Pseudo-Voigt eta polynomial constant (ADSimPeaksPeak.cpp line 51). -/
def s_pv_p4 : ℝ := 0.07842

/-- Pseudo-Voigt eta polynomial constant (ADSimPeaksPeak.cpp line 52). -/
def s_pv_e1 : ℝ := 1.36603

/-- Pseudo-Voigt eta polynomial constant (ADSimPeaksPeak.cpp line 53). -/
def s_pv_e2 : ℝ := 0.47719

/-- Pseudo-Voigt eta polynomial constant (ADSimPeaksPeak.cpp line 54). -/
def s_pv_e3 : ℝ := 0.11116

/-- ADSimPeaksPeak::zeroCheck (ADSimPeaksPeak.cpp lines 834-841): if the
value lies strictly between -1e-12 and 1e-12 return 1.0, else return the
value unchanged. The identical helper also appears as ADSimPeaks::zeroCheck
in ADSimPeaks.cpp. -/
def zeroCheck (value : ℝ) : ℝ :=
  if -s_zeroCheck < value ∧ value < s_zeroCheck then 1 else value

/-- The C++ conversion static_cast<epicsInt32> applied to a double:
truncation toward zero. -/
def cppTrunc (q : ℝ) : ℤ :=
  if 0 ≤ q then ⌊q⌋ else ⌈q⌉

/-- Truncation toward zero is the identity on integer-valued reals. -/
theorem cppTrunc_intCast (n : ℤ) : cppTrunc (n : ℝ) = n := by
  simp [cppTrunc]

/-- Mirror of the ADSimPeaksData container (ADSimPeaksData.h): peak
position, shape parameters and the array bin under evaluation. -/
structure PeaksData where
  positionX : ℝ
  positionY : ℝ
  fwhmX : ℝ
  fwhmY : ℝ
  amplitude : ℝ
  correlation : ℝ
  param1 : ℝ
  param2 : ℝ
  binX : ℤ
  binY : ℤ

/-- ADSimPeaksData::clear: all fields zeroed. -/
def PeaksData.clear : PeaksData := ⟨0, 0, 0, 0, 0, 0, 0, 0, 0, 0⟩

/-- The 1D peak-type enum e_type_1d (ADSimPeaksPeak.h). -/
inductive EType1D
  | none | square | triangle | gaussian | lorentz | pseudovoigt
  | laplace | moffat | smoothstep
deriving DecidableEq

/-- The 2D peak-type enum e_type_2d (ADSimPeaksPeak.h). -/
inductive EType2D
  | none | square | pyramid | cone | gaussian | lorentz | pseudovoigt
  | laplace | moffat | smoothstep
deriving DecidableEq

/-- ADSimPeaksPeak::computeGaussian (ADSimPeaksPeak.cpp lines 229-242),
with the double-converted bin generalized to a real coordinate x. -/
def computeGaussian (pos fwhm x : ℝ) : ℝ :=
  let f := max 1 fwhm
  let sigma := f / s_2s2l2
  (1 / (sigma * s_s2pi)) * Real.exp (-((x - pos) * (x - pos)) / (2 * (sigma * sigma)))

/-- ADSimPeaksPeak::computeLorentz (ADSimPeaksPeak.cpp lines 255-266). -/
def computeLorentz (pos fwhm x : ℝ) : ℝ :=
  let f := max 1 fwhm
  let gamma := f / 2
  (1 / (Real.pi * gamma)) * ((gamma * gamma) / (((x - pos) * (x - pos)) + (gamma * gamma)))

/-- ADSimPeaksPeak::computePseudoVoigtEta (ADSimPeaksPeak.cpp lines
573-586): the Thompson-Cox-Hastings mixing fraction. C++ pow with an
integral exponent is an exact power; pow(fwhm_sum, 0.2) is a real power. -/
def computePseudoVoigtEta (fwhm_g fwhm_l : ℝ) : ℝ :=
  let fwhm_sum := fwhm_g ^ 5 + s_pv_p1 * fwhm_g ^ 4 * fwhm_l +
    s_pv_p2 * fwhm_g ^ 3 * fwhm_l ^ 2 + s_pv_p3 * fwhm_g ^ 2 * fwhm_l ^ 3 +
    s_pv_p4 * fwhm_g * fwhm_l ^ 4 + fwhm_l ^ 5
  let fwhm_tot := fwhm_sum ^ ((0.2 : ℝ))
  s_pv_e1 * (fwhm_l / fwhm_tot) - s_pv_e2 * (fwhm_l / fwhm_tot) ^ 2 +
    s_pv_e3 * (fwhm_l / fwhm_tot) ^ 3

/-- ADSimPeaksPeak::computePseudoVoigt (ADSimPeaksPeak.cpp lines 279-302):
both FWHM inputs are the X FWHM; the Gaussian and Lorentz parts are
evaluated on the original data (they clamp internally). -/
def computePseudoVoigt (pos fwhm x : ℝ) : ℝ :=
  let fwhm_g := max 1 fwhm
  let fwhm_l := max 1 fwhm
  let eta := computePseudoVoigtEta fwhm_g fwhm_l
  (1 - eta) * computeGaussian pos fwhm x + eta * computeLorentz pos fwhm x

/-- ADSimPeaksPeak::computeLaplace (ADSimPeaksPeak.cpp lines 319-332). -/
def computeLaplace (pos fwhm x : ℝ) : ℝ :=
  let f := max 1 fwhm
  let b := f / s_2l2
  (1 / (2 * b)) * Real.exp (-(|x - pos| / b))

/-- ADSimPeaksPeak::computeTriangle (ADSimPeaksPeak.cpp lines 343-364);
the slope sign test compares the integer bin with the int-cast position. -/
def computeTriangle (pos fwhm : ℝ) (bin : ℤ) : ℝ :=
  let f := max 1 fwhm
  let peak : ℝ := 1
  let b := if bin ≤ cppTrunc pos then (peak / f) * 1 else (peak / f) * (-1)
  max 0 (peak + b * ((bin : ℝ) - pos))

/-- ADSimPeaksPeak::computeSquare (ADSimPeaksPeak.cpp lines 374-391): value
1.0 exactly when the integer bin lies in the half-open / closed window cut
at the int-cast boundaries pos - fwhm/2 and pos + fwhm/2. -/
def computeSquare (pos fwhm : ℝ) (bin : ℤ) : ℝ :=
  let f := max 1 fwhm
  if cppTrunc (pos - f / 2) < bin ∧ bin ≤ cppTrunc (pos + f / 2) then 1 else 0

/-- ADSimPeaksPeak::computeMoffat (ADSimPeaksPeak.cpp lines 408-424): beta
is the zero-checked shape parameter p1. -/
def computeMoffat (pos fwhm p1 x : ℝ) : ℝ :=
  let f := max 1 fwhm
  let beta := zeroCheck p1
  let alpha := f / (2 * Real.sqrt ((2 : ℝ) ^ (1 / beta) - 1))
  let alpha2 := alpha * alpha
  ((beta - 1) / (Real.pi * alpha2)) * (1 + ((x - pos) * (x - pos)) / alpha2) ^ (-beta)

/-- ADSimPeaksPeak::computeSmoothStep (ADSimPeaksPeak.cpp lines 441-454). -/
def computeSmoothStep (pos fwhm x : ℝ) : ℝ :=
  let f := max 1 fwhm
  let low_edge := pos - f / 2
  let t := max 0 (min ((x - low_edge) / f) 1)
  6 * t ^ 5 - 15 * t ^ 4 + 10 * t ^ 3

/-- ADSimPeaksPeak::compute1D (ADSimPeaksPeak.cpp lines 68-102): dispatch
on the 1D shape family; the none family contributes 0. Every branch of the
C++ switch returns e_status::success, so the result value is total. -/
def compute1D (d : PeaksData) (t : EType1D) : ℝ :=
  match t with
  | .none => 0
  | .square => computeSquare d.positionX d.fwhmX d.binX
  | .triangle => computeTriangle d.positionX d.fwhmX d.binX
  | .gaussian => computeGaussian d.positionX d.fwhmX (d.binX : ℝ)
  | .lorentz => computeLorentz d.positionX d.fwhmX (d.binX : ℝ)
  | .pseudovoigt => computePseudoVoigt d.positionX d.fwhmX (d.binX : ℝ)
  | .laplace => computeLaplace d.positionX d.fwhmX (d.binX : ℝ)
  | .moffat => computeMoffat d.positionX d.fwhmX d.param1 (d.binX : ℝ)
  | .smoothstep => computeSmoothStep d.positionX d.fwhmX (d.binX : ℝ)

/-- ADSimPeaksPeak::computeGaussian2D (ADSimPeaksPeak.cpp lines 469-495):
bivariate normal form with the correlation clamped into [-1,1]. -/
def computeGaussian2D (x_pos y_pos x_fwhm y_fwhm rho x y : ℝ) : ℝ :=
  let fx := max 1 x_fwhm
  let fy := max 1 y_fwhm
  let r := min 1 (max (-1) rho)
  let x_sig := fx / s_2s2l2
  let y_sig := fy / s_2s2l2
  let xy_amp := 1 / (2 * Real.pi * x_sig * y_sig * Real.sqrt (1 - r * r))
  let xy_factor := -1 / (2 * (1 - r * r))
  let xy_calc1 := (x - x_pos) / x_sig
  let xy_calc2 := (y - y_pos) / y_sig
  xy_amp * Real.exp (xy_factor *
    (xy_calc1 * xy_calc1 - 2 * r * xy_calc1 * xy_calc2 + xy_calc2 * xy_calc2))

/-- ADSimPeaksPeak::computeLorentz2D (ADSimPeaksPeak.cpp lines 511-528):
symmetric bivariate Cauchy using only the X FWHM. -/
def computeLorentz2D (x_pos y_pos fwhm x y : ℝ) : ℝ :=
  let f := max 1 fwhm
  let gamma := f / 2
  let xy_calc1 := x - x_pos
  let xy_calc2 := y - y_pos
  (1 / (2 * Real.pi)) *
    (gamma / (xy_calc1 * xy_calc1 + xy_calc2 * xy_calc2 + gamma * gamma) ^ ((1.5 : ℝ)))

/-- ADSimPeaksPeak::computePseudoVoigt2D (ADSimPeaksPeak.cpp lines
546-571): the eta mixing fraction is built from the average of the two
clamped FWHM values; the Gaussian and Lorentz parts are evaluated on the
original data. -/
def computePseudoVoigt2D (x_pos y_pos x_fwhm y_fwhm rho x y : ℝ) : ℝ :=
  let fx := max 1 x_fwhm
  let fy := max 1 y_fwhm
  let fwhm_av := (fx + fy) / 2
  let eta := computePseudoVoigtEta fwhm_av fwhm_av
  (1 - eta) * computeGaussian2D x_pos y_pos x_fwhm y_fwhm rho x y +
    eta * computeLorentz2D x_pos y_pos x_fwhm x y

/-- ADSimPeaksPeak::computeLaplace2D (ADSimPeaksPeak.cpp lines 606-632):
decaying-exponential approximation of the bivariate Laplace. -/
def computeLaplace2D (x_pos y_pos x_fwhm y_fwhm rho x y : ℝ) : ℝ :=
  let fx := max 1 x_fwhm
  let fy := max 1 y_fwhm
  let r := min 1 (max (-1) rho)
  let x_sig := Real.sqrt 2 * (fx / s_2l2)
  let y_sig := Real.sqrt 2 * (fy / s_2l2)
  let xy_amp := 1 / (Real.pi * x_sig * y_sig * Real.sqrt (1 - r * r))
  let xy_calc1 := (x - x_pos) / x_sig
  let xy_calc2 := (y - y_pos) / y_sig
  xy_amp * Real.exp (-Real.sqrt ((2 *
    (xy_calc1 * xy_calc1 - 2 * r * xy_calc1 * xy_calc2 + xy_calc2 * xy_calc2)) /
    (1 - r * r)))

/-- ADSimPeaksPeak::computePyramid2D (ADSimPeaksPeak.cpp lines 642-675):
separable linear ramp with per-quadrant slope signs decided on the
int-cast center coordinates. -/
def computePyramid2D (x_pos y_pos x_fwhm y_fwhm : ℝ) (x_bin y_bin : ℤ) : ℝ :=
  let fx := max 1 x_fwhm
  let fy := max 1 y_fwhm
  let peak : ℝ := 1
  let b := if x_bin ≤ cppTrunc x_pos then (peak / fx) * 1 else (peak / fx) * (-1)
  let c := if y_bin ≤ cppTrunc y_pos then (peak / fy) * 1 else (peak / fy) * (-1)
  max 0 (peak + b * ((x_bin : ℝ) - x_pos) + c * ((y_bin : ℝ) - y_pos))

/-- ADSimPeaksPeak::computeCone2D (ADSimPeaksPeak.cpp lines 685-717):
elliptical cone with the explicit branch for the removable singularity at
the center. -/
def computeCone2D (x_pos y_pos x_fwhm y_fwhm x y : ℝ) : ℝ :=
  let fx := max 1 x_fwhm
  let fy := max 1 y_fwhm
  let peak := fx + fy
  let d := Real.sqrt ((x - x_pos) * (x - x_pos) + (y - y_pos) * (y - y_pos))
  let height := if d = 0 then peak else
    (let theta := Real.arcsin ((y - y_pos) / d)
     let r := fx * fy / Real.sqrt ((fy * Real.cos theta) ^ 2 + (fx * Real.sin theta) ^ 2)
     (r - d) * (peak / r))
  max 0 height

/-- ADSimPeaksPeak::computeSquare2D (ADSimPeaksPeak.cpp lines 727-751). -/
def computeSquare2D (x_pos y_pos x_fwhm y_fwhm : ℝ) (x_bin y_bin : ℤ) : ℝ :=
  let fx := max 1 x_fwhm
  let fy := max 1 y_fwhm
  if cppTrunc (x_pos - fx / 2) < x_bin ∧ x_bin ≤ cppTrunc (x_pos + fx / 2) ∧
     cppTrunc (y_pos - fy / 2) < y_bin ∧ y_bin ≤ cppTrunc (y_pos + fy / 2)
  then 1 else 0

/-- ADSimPeaksPeak::computeMoffat2D (ADSimPeaksPeak.cpp lines 768-787):
uses only the X FWHM and the zero-checked p1 shape exponent. -/
def computeMoffat2D (x_pos y_pos fwhm p1 x y : ℝ) : ℝ :=
  let f := max 1 fwhm
  let beta := zeroCheck p1
  let alpha := f / (2 * Real.sqrt ((2 : ℝ) ^ (1 / beta) - 1))
  let alpha2 := alpha * alpha
  ((beta - 1) / (Real.pi * alpha2)) *
    (1 + ((x - x_pos) * (x - x_pos) + (y - y_pos) * (y - y_pos)) / alpha2) ^ (-beta)

/-- ADSimPeaksPeak::computeSmoothStep2D (ADSimPeaksPeak.cpp lines
804-824): the X and Y ramps are averaged before the quintic polynomial. -/
def computeSmoothStep2D (x_pos y_pos x_fwhm y_fwhm x y : ℝ) : ℝ :=
  let fx := max 1 x_fwhm
  let fy := max 1 y_fwhm
  let x_low_edge := x_pos - fx / 2
  let y_low_edge := y_pos - fy / 2
  let t := (max 0 (min ((x - x_low_edge) / fx) 1) +
            max 0 (min ((y - y_low_edge) / fy) 1)) / 2
  6 * t ^ 5 - 15 * t ^ 4 + 10 * t ^ 3

/-- ADSimPeaksPeak::compute2D (ADSimPeaksPeak.cpp lines 138-174). -/
def compute2D (d : PeaksData) (t : EType2D) : ℝ :=
  match t with
  | .none => 0
  | .square => computeSquare2D d.positionX d.positionY d.fwhmX d.fwhmY d.binX d.binY
  | .pyramid => computePyramid2D d.positionX d.positionY d.fwhmX d.fwhmY d.binX d.binY
  | .cone => computeCone2D d.positionX d.positionY d.fwhmX d.fwhmY (d.binX : ℝ) (d.binY : ℝ)
  | .gaussian =>
      computeGaussian2D d.positionX d.positionY d.fwhmX d.fwhmY d.correlation
        (d.binX : ℝ) (d.binY : ℝ)
  | .lorentz => computeLorentz2D d.positionX d.positionY d.fwhmX (d.binX : ℝ) (d.binY : ℝ)
  | .pseudovoigt =>
      computePseudoVoigt2D d.positionX d.positionY d.fwhmX d.fwhmY d.correlation
        (d.binX : ℝ) (d.binY : ℝ)
  | .laplace =>
      computeLaplace2D d.positionX d.positionY d.fwhmX d.fwhmY d.correlation
        (d.binX : ℝ) (d.binY : ℝ)
  | .moffat =>
      computeMoffat2D d.positionX d.positionY d.fwhmX d.param1 (d.binX : ℝ) (d.binY : ℝ)
  | .smoothstep =>
      computeSmoothStep2D d.positionX d.positionY d.fwhmX d.fwhmY (d.binX : ℝ) (d.binY : ℝ)

/-- The background-type enum e_bg_type (ADSimPeaks.h): none = 0,
polynomial, exponential. -/
inductive BgType
  | none | polynomial | exponential
deriving DecidableEq

/-- One per-axis background descriptor: type, coefficients c0..c3 and
shift, as read from the parameter store in ADSimPeaks::computeDataT. -/
structure Background where
  bgtype : BgType
  c0 : ℝ
  c1 : ℝ
  c2 : ℝ
  c3 : ℝ
  sh : ℝ

/-- Per-bin X background contribution (ADSimPeaks.cpp, computeDataT lines
811-817): a cubic polynomial or an exponential pow(exp(1.0), ...) in the
decomposed bin coordinate; the none type leaves the initial 0.0. -/
def backgroundX (bg : Background) (bin_x : ℕ) : ℝ :=
  match bg.bgtype with
  | .polynomial =>
      bg.c0 + ((bin_x : ℝ) - bg.sh) * bg.c1 + ((bin_x : ℝ) - bg.sh) ^ 2 * bg.c2 +
        ((bin_x : ℝ) - bg.sh) ^ 3 * bg.c3
  | .exponential => bg.c0 + bg.c1 * Real.exp 1 ^ (((bin_x : ℝ) - bg.sh) * bg.c2)
  | .none => 0

/-- One peak slot as read from the parameter store at the top of the
per-peak loop of ADSimPeaks::computeDataT (lines 830-866). -/
structure PeakConf where
  ptype : EType1D
  posX : ℝ
  posY : ℝ
  fwhmX : ℝ
  fwhmY : ℝ
  amplitude : ℝ
  correlation : ℝ
  p1 : ℝ
  p2 : ℝ

/-- The ADSimPeaksData object built for one peak at one bin: clear() then
the set calls of computeDataT lines 850-866 and the setBinX call. -/
def peakData (p : PeakConf) (bin : ℤ) : PeaksData :=
  { PeaksData.clear with
      positionX := p.posX, positionY := p.posY,
      fwhmX := p.fwhmX, fwhmY := p.fwhmY,
      amplitude := p.amplitude, correlation := p.correlation,
      param1 := p.p1, param2 := p.p2, binX := bin }

/-- The center bin used for normalization: computeDataT line 886 passes
the double position to setBinX(epicsInt32), truncating toward zero. -/
def centerBin (p : PeakConf) : ℤ := cppTrunc p.posX

/-- The normalization factor of computeDataT line 889:
scale_factor = amplitude / zeroCheck(result_max), where result_max is the
kernel value at the peak center bin. -/
def scaleFactor1D (p : PeakConf) : ℝ :=
  p.amplitude / zeroCheck (compute1D (peakData p (centerBin p)) p.ptype)

/-- The contribution one peak slot adds to one bin of a float64 buffer
(computeDataT lines 830-900): a none-type slot is skipped; an all-zero
maxX boundary is replaced by the X size; bins outside the inclusive
[minX, maxX] window are not touched; inside it the kernel value times the
scale factor is added. -/
def peakContrib (sizeX minX maxX : ℕ) (p : PeakConf) (bin : ℕ) : ℝ :=
  if p.ptype = EType1D.none then 0
  else
    let mx := if maxX = 0 then sizeX else maxX
    if minX ≤ bin ∧ bin ≤ mx then
      compute1D (peakData p (bin : ℤ)) p.ptype * scaleFactor1D p
    else 0

/-- The noise-type enum e_noise_type (ADSimPeaks.h): none = 0, uniform,
gaussian. -/
inductive NoiseType
  | none | uniform | gaussian
deriving DecidableEq

/-- The noise descriptor read in computeDataT lines 929-933. -/
structure NoiseConf where
  ntype : NoiseType
  level : ℝ
  clamp : Bool
  lower : ℝ
  upper : ℝ

/-- Per-bin noise contribution (computeDataT lines 934-954): the drawn
sample is scaled by the level and optionally clamped into
[lower, upper]; the none type adds nothing. The RNG draw is modelled as
the input sample. -/
def noiseContrib (nc : NoiseConf) (sample : ℝ) : ℝ :=
  match nc.ntype with
  | .none => 0
  | _ =>
      let n := nc.level * sample
      if nc.clamp then max nc.lower (min nc.upper n) else n

/-- The full configuration snapshot one frame of the 1D compositor reads
from the parameter store. The peak boundary parameters are read without a
peak address (computeDataT lines 869-876), so a single window applies to
all peak slots. -/
structure Frame1DConfig where
  sizeX : ℕ
  integrate : Bool
  bgX : Background
  peaks : List PeakConf
  minX : ℕ
  maxX : ℕ
  noise : NoiseConf

/-- ADSimPeaks::computeDataT for a 1D frame with float64 elements
(ADSimPeaks.cpp lines 726-957), as a pure function from the previous
buffer content to the new content: zero the buffer when integration is
off or a reset is pending, add the background, add every scaled peak,
add the noise. For float64 elements the static_cast<T> at each
accumulation is the identity. -/
def computeDataT (cfg : Frame1DConfig) (needReset : Bool) (samples : ℕ → ℝ)
    (prev : ℕ → ℝ) : ℕ → ℝ :=
  fun bin =>
    let base := if cfg.integrate = false ∨ needReset = true then 0 else prev bin
    base + backgroundX cfg.bgX (bin % cfg.sizeX) +
      (cfg.peaks.map (fun p => peakContrib cfg.sizeX cfg.minX cfg.maxX p bin)).sum +
      noiseContrib cfg.noise (samples bin)

/-- The float64 parameters with dedicated branches in
ADSimPeaks::writeFloat64 (ADSimPeaks.cpp lines 341-384), plus the noise
clamp bound parameters (stored by the default path) and a tag for every
other float64 parameter. -/
inductive FloatParam
  | acquirePeriod | peakFwhmX | peakFwhmY | peakCor | noiseLower | noiseUpper | other
deriving DecidableEq

/-- ADSimPeaks::writeFloat64 (ADSimPeaks.cpp lines 341-384) as the value
transformation applied before the store plus the returned status (true =
success): the acquire period is clamped to 0, the FWHM values to
at least 1.0, the correlation into [-1,1]; every other float64 value,
including the noise clamp bounds, is stored unchanged, and no value is
ever rejected for its range. -/
def writeFloat64 (f : FloatParam) (value : ℝ) : ℝ × Bool :=
  match f with
  | .acquirePeriod => (max 0 value, true)
  | .peakFwhmX => (max 1 value, true)
  | .peakFwhmY => (max 1 value, true)
  | .peakCor => (min 1 (max (-1) value), true)
  | _ => (value, true)

/-- The int32 parameters with dedicated branches in
ADSimPeaks::writeInt32 (ADSimPeaks.cpp lines 285-311). -/
inductive IntParam
  | sizeX | sizeY | peakMinX | peakMinY | peakMaxX | peakMaxY | numImages | other
deriving DecidableEq

/-- ADSimPeaks::writeInt32 (ADSimPeaks.cpp lines 285-311) as the value
transformation applied before the store: the X and Y sizes are clamped
into [1, maxSize], the peak boundaries into [0, maxSize-1] (the maxY
branch reuses m_maxSizeX, as the source does), and the image count to at
least 1. -/
def writeInt32 (maxSizeX maxSizeY : ℤ) (f : IntParam) (value : ℤ) : ℤ :=
  match f with
  | .sizeX => max 1 (min value maxSizeX)
  | .sizeY => max 1 (min value maxSizeY)
  | .peakMinX => max 0 (min value (maxSizeX - 1))
  | .peakMinY => max 0 (min value (maxSizeY - 1))
  | .peakMaxX => max 0 (min value (maxSizeX - 1))
  | .peakMaxY => max 0 (min value (maxSizeX - 1))
  | .numImages => max 1 value
  | .other => value

/-- The image-mode enum of the host layer: ADImageSingle, ADImageMultiple,
ADImageContinuous. -/
inductive ImageMode
  | single | multiple | continuous
deriving DecidableEq

/-- The detector status values the driver sets on the ADStatus parameter:
ADStatusIdle, ADStatusAcquire, ADStatusAborted. -/
inductive AcqStatus
  | idle | acquire | aborted
deriving DecidableEq

/-- The driver state visible to the ADAcquire handling of
ADSimPeaks::writeInt32: the m_acquiring flag owned by the worker thread,
the ADStatus parameter and the m_needReset flag. -/
structure CtrlState where
  acquiring : Bool
  status : AcqStatus
  needReset : Bool
deriving DecidableEq

/-- ADSimPeaks::writeInt32 handling of an ADAcquire write (ADSimPeaks.cpp
lines 271-284): a start (value 1) while not acquiring marks a pending
reset, signals the start event and sets the status to acquiring; a stop
(value 0) while acquiring signals the stop event and sets the status to
idle for continuous mode and to aborted otherwise. The returned booleans
are (start event signaled, stop event signaled). -/
def writeAcquire (mode : ImageMode) (st : CtrlState) (value : ℤ) : CtrlState × Bool × Bool :=
  let s1 := if value = 1 ∧ st.acquiring = false then
      ({ st with needReset := true, status := AcqStatus.acquire }, true)
    else (st, false)
  let s2 := if value = 0 ∧ s1.1.acquiring = true then
      ({ s1.1 with
          status := if mode = ImageMode.continuous then AcqStatus.idle
            else AcqStatus.aborted }, true)
    else (s1.1, false)
  (s2.1, s1.2, s2.2)

/-- Values strictly inside (-1e-12, 1e-12) are replaced by 1.0. -/
theorem zeroCheck_eq_one {v : ℝ} (h : |v| < s_zeroCheck) : zeroCheck v = 1 := by
  rw [zeroCheck, if_pos (abs_lt.mp h)]

/-- Values of magnitude at least 1e-12 pass through zeroCheck unchanged. -/
theorem zeroCheck_eq_self {v : ℝ} (h : s_zeroCheck ≤ |v|) : zeroCheck v = v := by
  rw [zeroCheck, if_neg]
  rw [← abs_lt]
  exact not_lt.mpr h

/-- Claim C9, as amended: zeroCheck returns 1.0 for every input of
magnitude strictly below 1e-12 and returns every other input unchanged
(the converse direction of the original claim fails at v = 1.0, which
zeroCheck returns unchanged as 1.0). -/
theorem claim_C9 : ∀ v : ℝ,
    (|v| < s_zeroCheck → zeroCheck v = 1) ∧ (s_zeroCheck ≤ |v| → zeroCheck v = v) :=
  fun _ => ⟨zeroCheck_eq_one, zeroCheck_eq_self⟩

/-- Claim C9 as stated is false: zeroCheck 1.0 = 1.0 although
|1.0| is not below 1e-12, so returning 1.0 does not imply the input was
near zero. -/
theorem claim_C9_counterexample : zeroCheck 1 = 1 ∧ ¬ (|(1 : ℝ)| < s_zeroCheck) := by
  constructor
  · simp [zeroCheck]
  · norm_num [s_zeroCheck]

/-- Concrete instances of claim C9: the small input 0 maps to 1 and the
large input 2 passes through. -/
theorem claim_C9_witness : zeroCheck 0 = 1 ∧ zeroCheck 2 = 2 :=
  ⟨(claim_C9 0).1 (by norm_num [s_zeroCheck]),
   (claim_C9 2).2 (by norm_num [s_zeroCheck])⟩

/-- Claim C3: for every peak whose kernel value at its own center bin has
magnitude at least 1e-12, the scaled center value
result_max * (amplitude / zeroCheck result_max) computed by the compositor
equals the configured amplitude exactly. -/
theorem claim_C3 : ∀ p : PeakConf,
    s_zeroCheck ≤ |compute1D (peakData p (centerBin p)) p.ptype| →
    compute1D (peakData p (centerBin p)) p.ptype * scaleFactor1D p = p.amplitude := by
  intro p h
  have hne : compute1D (peakData p (centerBin p)) p.ptype ≠ 0 := by
    intro h0
    rw [h0] at h
    simp [s_zeroCheck] at h
    linarith
  rw [scaleFactor1D, zeroCheck_eq_self h, mul_comm, div_mul_cancel₀ _ hne]

/-- Concrete instance of claim C3: a square peak at position 5 with FWHM 4
has center kernel value 1, and the scaled center value equals the
configured amplitude 3. -/
theorem claim_C3_witness :
    compute1D (peakData ⟨EType1D.square, 5, 1, 4, 1, 3, 1, 0, 0⟩
        (centerBin ⟨EType1D.square, 5, 1, 4, 1, 3, 1, 0, 0⟩)) EType1D.square *
      scaleFactor1D ⟨EType1D.square, 5, 1, 4, 1, 3, 1, 0, 0⟩ = 3 := by
  have h := claim_C3 ⟨EType1D.square, 5, 1, 4, 1, 3, 1, 0, 0⟩
  have hc : compute1D (peakData ⟨EType1D.square, 5, 1, 4, 1, 3, 1, 0, 0⟩
      (centerBin ⟨EType1D.square, 5, 1, 4, 1, 3, 1, 0, 0⟩)) EType1D.square = 1 := by
    have h5 : cppTrunc ((5 : ℝ)) = 5 := by
      have : ((5 : ℤ) : ℝ) = (5 : ℝ) := by norm_num
      rw [← this, cppTrunc_intCast]
    have h3 : cppTrunc ((5 : ℝ) - 4 / 2) = 3 := by
      have : (5 : ℝ) - 4 / 2 = ((3 : ℤ) : ℝ) := by norm_num
      rw [this, cppTrunc_intCast]
    have h7 : cppTrunc ((5 : ℝ) + 4 / 2) = 7 := by
      have : (5 : ℝ) + 4 / 2 = ((7 : ℤ) : ℝ) := by norm_num
      rw [this, cppTrunc_intCast]
    simp [compute1D, peakData, PeaksData.clear, centerBin, computeSquare, h5, h3, h7]
  exact h (by rw [hc]; norm_num [s_zeroCheck])

/-- Claim C6: on an ADAcquire stop write, an idle driver is left fully
unchanged and no event fires; an acquiring driver signals the stop event
and moves the status to idle in continuous mode and to aborted in the
bounded single and multiple modes (where acquiring still true means the
bounded run had not completed). -/
theorem claim_C6 : ∀ (st : CtrlState) (mode : ImageMode),
    (st.acquiring = false → writeAcquire mode st 0 = (st, false, false)) ∧
    (st.acquiring = true → mode = ImageMode.continuous →
      writeAcquire mode st 0 = ({ st with status := AcqStatus.idle }, false, true)) ∧
    (st.acquiring = true → (mode = ImageMode.single ∨ mode = ImageMode.multiple) →
      writeAcquire mode st 0 = ({ st with status := AcqStatus.aborted }, false, true)) := by
  intro st mode
  refine ⟨fun h => ?_, fun h hm => ?_, fun h hm => ?_⟩
  · simp [writeAcquire, h]
  · simp [writeAcquire, h, hm]
  · have hm' : mode ≠ ImageMode.continuous := by
      rcases hm with hm | hm <;> (rw [hm]; intro hc; exact ImageMode.noConfusion hc)
    simp [writeAcquire, h, hm']

/-- Concrete instances of claim C6: a stop while idle is a no-op, a stop
of a continuous run goes to idle, a stop of a single-mode run goes to
aborted. -/
theorem claim_C6_witness :
    writeAcquire ImageMode.continuous ⟨false, AcqStatus.idle, false⟩ 0 =
      (⟨false, AcqStatus.idle, false⟩, false, false) ∧
    writeAcquire ImageMode.continuous ⟨true, AcqStatus.acquire, false⟩ 0 =
      (⟨true, AcqStatus.idle, false⟩, false, true) ∧
    writeAcquire ImageMode.single ⟨true, AcqStatus.acquire, false⟩ 0 =
      (⟨true, AcqStatus.aborted, false⟩, false, true) :=
  ⟨(claim_C6 ⟨false, AcqStatus.idle, false⟩ ImageMode.continuous).1 rfl,
   (claim_C6 ⟨true, AcqStatus.acquire, false⟩ ImageMode.continuous).2.1 rfl rfl,
   (claim_C6 ⟨true, AcqStatus.acquire, false⟩ ImageMode.single).2.2 rfl (Or.inl rfl)⟩

/-- Claim C8: writeFloat64 silently clamps out-of-domain values to the
nearest legal value before the store - a FWHM below 1.0 is stored as 1.0,
a correlation below -1 as -1 and above 1 as 1, the stored values always
lie in the legal domain - and no float64 write is ever rejected for its
range (the noise clamp bound parameters carry no domain restriction and
are stored unchanged). -/
theorem claim_C8 : ∀ v : ℝ,
    (v < 1 → (writeFloat64 FloatParam.peakFwhmX v).1 = 1 ∧
      (writeFloat64 FloatParam.peakFwhmY v).1 = 1) ∧
    (v < -1 → (writeFloat64 FloatParam.peakCor v).1 = -1) ∧
    (1 < v → (writeFloat64 FloatParam.peakCor v).1 = 1) ∧
    (1 ≤ (writeFloat64 FloatParam.peakFwhmX v).1 ∧
      -1 ≤ (writeFloat64 FloatParam.peakCor v).1 ∧
      (writeFloat64 FloatParam.peakCor v).1 ≤ 1) ∧
    ((writeFloat64 FloatParam.noiseLower v).1 = v ∧
      (writeFloat64 FloatParam.noiseUpper v).1 = v) ∧
    (∀ f : FloatParam, (writeFloat64 f v).2 = true) := by
  intro v
  refine ⟨fun h => ⟨?_, ?_⟩, fun h => ?_, fun h => ?_, ⟨?_, ?_, ?_⟩, ⟨rfl, rfl⟩, fun f => ?_⟩
  · simp [writeFloat64, max_eq_left h.le]
  · simp [writeFloat64, max_eq_left h.le]
  · simp only [writeFloat64]
    rw [max_eq_left (by linarith : v ≤ -1)]
    norm_num
  · simp only [writeFloat64]
    rw [max_eq_right (by linarith : (-1 : ℝ) ≤ v), min_eq_left h.le]
  · exact le_max_left 1 v
  · exact le_min (by norm_num) (le_max_left (-1) v)
  · exact min_le_left 1 (max (-1) v)
  · cases f <;> rfl

/-- Concrete instances of claim C8: an FWHM write of 0.25 stores 1.0, a
correlation write of -3 stores -1, and both writes report success. -/
theorem claim_C8_witness :
    (writeFloat64 FloatParam.peakFwhmX 0.25).1 = 1 ∧
    (writeFloat64 FloatParam.peakCor (-3)).1 = -1 ∧
    (writeFloat64 FloatParam.peakFwhmX 0.25).2 = true :=
  ⟨((claim_C8 0.25).1 (by norm_num)).1,
   (claim_C8 (-3)).2.1 (by norm_num),
   (claim_C8 0.25).2.2.2.2.2 FloatParam.peakFwhmX⟩

/-- Claim C10: the writeInt32 handler clamps a frame size X write into
[1, maxSizeX], a frame size Y write into [1, maxSizeY] and a number of
images write to at least 1, so the stored dimensions are at least 1 and
never exceed the construction-time maxima (assumed positive). -/
theorem claim_C10 : ∀ (mx my v : ℤ),
    (1 ≤ mx → 1 ≤ writeInt32 mx my IntParam.sizeX v ∧
      writeInt32 mx my IntParam.sizeX v ≤ mx) ∧
    (1 ≤ my → 1 ≤ writeInt32 mx my IntParam.sizeY v ∧
      writeInt32 mx my IntParam.sizeY v ≤ my) ∧
    1 ≤ writeInt32 mx my IntParam.numImages v := by
  intro mx my v
  refine ⟨fun h => ⟨?_, ?_⟩, fun h => ⟨?_, ?_⟩, ?_⟩ <;> simp [writeInt32] <;> omega

/-- Concrete instances of claim C10: with maxima 100 and 50, a size-X
write of 200 stays in [1, 100], a size-Y write of 200 stays in [1, 50],
and a number-of-images write of -5 stores at least 1. -/
theorem claim_C10_witness :
    (1 ≤ writeInt32 100 50 IntParam.sizeX 200 ∧
      writeInt32 100 50 IntParam.sizeX 200 ≤ 100) ∧
    (1 ≤ writeInt32 100 50 IntParam.sizeY 200 ∧
      writeInt32 100 50 IntParam.sizeY 200 ≤ 50) ∧
    1 ≤ writeInt32 100 50 IntParam.numImages (-5) :=
  ⟨(claim_C10 100 50 200).1 (by norm_num),
   (claim_C10 100 50 200).2.1 (by norm_num),
   (claim_C10 100 50 (-5)).2.2⟩

/-- Background descriptor of kind none. -/
def bgNone : Background := ⟨BgType.none, 0, 0, 0, 0, 0⟩

/-- Noise descriptor of kind none. -/
def noiseNone : NoiseConf := ⟨NoiseType.none, 0, false, 0, 0⟩

/-- The square peak of the C1 scenario: pos 5, FWHM 4, amplitude 3
(remaining fields at their construction defaults). -/
def peakC1 : PeakConf := ⟨EType1D.square, 5, 1, 4, 1, 3, 1, 0, 0⟩

/-- The C1 scenario configuration: 10 bins, background none, one square
peak, no boundary restriction, noise none. -/
def cfgC1 : Frame1DConfig := ⟨10, false, bgNone, [peakC1], 0, 0, noiseNone⟩

/-- The C1 frame: one composition starting from a zeroed buffer. -/
def frameC1 : ℕ → ℝ := computeDataT cfgC1 false (fun _ => 0) (fun _ => 0)

/-- The square kernel at pos 5, FWHM 4 is the indicator of 3 < bin ≤ 7:
the int-cast boundaries are 3 and 7. -/
theorem computeSquare_five_four (bin : ℤ) :
    computeSquare 5 4 bin = if 3 < bin ∧ bin ≤ 7 then 1 else 0 := by
  have h3 : cppTrunc ((5 : ℝ) - 4 / 2) = 3 := by
    have h : (5 : ℝ) - 4 / 2 = ((3 : ℤ) : ℝ) := by norm_num
    rw [h, cppTrunc_intCast]
  have h7 : cppTrunc ((5 : ℝ) + 4 / 2) = 7 := by
    have h : (5 : ℝ) + 4 / 2 = ((7 : ℤ) : ℝ) := by norm_num
    rw [h, cppTrunc_intCast]
  simp [computeSquare, h3, h7]

/-- Full evaluation of the C1 frame on its 10 bins (plus the boundary
value 10 accepted by the inclusive window test). -/
theorem frameC1_eval (bin : ℕ) (hb : bin ≤ 10) :
    frameC1 bin = if 3 < bin ∧ bin ≤ 7 then 3 else 0 := by
  have h5 : cppTrunc ((5 : ℝ)) = 5 := by
    have h : ((5 : ℤ) : ℝ) = (5 : ℝ) := by norm_num
    rw [← h, cppTrunc_intCast]
  have hz : zeroCheck 1 = 1 := by simp [zeroCheck]
  by_cases hc : 3 < bin ∧ bin ≤ 7
  · have hc' : 3 < (bin : ℤ) ∧ (bin : ℤ) ≤ 7 := by omega
    simp [frameC1, computeDataT, cfgC1, bgNone, noiseNone, peakC1, backgroundX,
      noiseContrib, peakContrib, scaleFactor1D, centerBin, peakData, PeaksData.clear,
      compute1D, computeSquare_five_four, h5, hz, hb, hc, hc']
  · have hc' : ¬(3 < (bin : ℤ) ∧ (bin : ℤ) ≤ 7) := by omega
    simp [frameC1, computeDataT, cfgC1, bgNone, noiseNone, peakC1, backgroundX,
      noiseContrib, peakContrib, scaleFactor1D, centerBin, peakData, PeaksData.clear,
      compute1D, computeSquare_five_four, h5, hz, hb, hc, hc']

/-- Claim C1, as amended: in the 10-bin square-peak scenario (pos 5,
FWHM 4, amplitude 3, background none, noise none, zeroed start) the bins
receiving value 3 are exactly those with 3 < bin ≤ 7 - the int-cast
boundaries are pos - fwhm/2 = 3 and pos + fwhm/2 = 7 - and every other
bin holds 0. -/
theorem claim_C1 : ∀ bin : ℕ, bin < 10 →
    frameC1 bin = if 3 < bin ∧ bin ≤ 7 then 3 else 0 := by
  intro bin hb
  exact frameC1_eval bin (by omega)

/-- Claim C1 as stated is false: bin 4 receives the value 3, although
4 < bin ≤ 6 does not hold at bin 4, so under the original claim bin 4
would have to hold 0. -/
theorem claim_C1_counterexample :
    frameC1 4 = 3 ∧ ¬(4 < 4 ∧ 4 ≤ 6) ∧ (3 : ℝ) ≠ 0 := by
  refine ⟨?_, by decide, by norm_num⟩
  have h := frameC1_eval 4 (by norm_num)
  norm_num at h
  exact h

/-- Concrete instances of claim C1: bin 4 receives 3 and bin 8 receives
0. -/
theorem claim_C1_witness : frameC1 4 = 3 ∧ frameC1 8 = 0 := by
  have h4 := claim_C1 4 (by norm_num)
  have h8 := claim_C1 8 (by norm_num)
  norm_num at h4 h8
  exact ⟨h4, h8⟩

/-- The gaussian peak of the C2 scenario: pos 50, FWHM 10, amplitude 100,
restricted to bins [0, 40]. -/
def peakC2 : PeakConf := ⟨EType1D.gaussian, 50, 1, 10, 1, 100, 1, 0, 0⟩

/-- The C2 scenario configuration: 100 bins, background none, one
gaussian peak with boundary window [0, 40], noise none. -/
def cfgC2 : Frame1DConfig := ⟨100, false, bgNone, [peakC2], 0, 40, noiseNone⟩

/-- The C2 frame: one composition starting from a zeroed buffer. -/
def frameC2 : ℕ → ℝ := computeDataT cfgC2 false (fun _ => 0) (fun _ => 0)

/-- Claim C2: with a nonzero maxX boundary, the peak-accumulation step
adds nothing to any bin outside the inclusive window [minX, maxX]; in
particular the 100-bin gaussian scenario with window [0, 40] produces
exactly 0 on bins 41..99. -/
theorem claim_C2 :
    (∀ (sizeX minX maxX : ℕ) (p : PeakConf) (bin : ℕ), maxX ≠ 0 →
      ¬(minX ≤ bin ∧ bin ≤ maxX) → peakContrib sizeX minX maxX p bin = 0) ∧
    (∀ bin : ℕ, 41 ≤ bin → bin ≤ 99 → frameC2 bin = 0) := by
  have hgen : ∀ (sizeX minX maxX : ℕ) (p : PeakConf) (bin : ℕ), maxX ≠ 0 →
      ¬(minX ≤ bin ∧ bin ≤ maxX) → peakContrib sizeX minX maxX p bin = 0 := by
    intro sizeX minX maxX p bin hmax hout
    by_cases hp : p.ptype = EType1D.none
    · simp [peakContrib, hp]
    · simp [peakContrib, hp, hmax, hout]
  refine ⟨hgen, fun bin h41 h99 => ?_⟩
  have hc := hgen 100 0 40 peakC2 bin (by norm_num) (by omega)
  simp [frameC2, computeDataT, cfgC2, bgNone, noiseNone, backgroundX, noiseContrib, hc]

/-- Concrete instances of claim C2: the window [0, 40] suppresses the
peak contribution at bin 50, and the C2 frame holds 0 at bin 50. -/
theorem claim_C2_witness :
    peakContrib 100 0 40 peakC2 50 = 0 ∧ frameC2 50 = 0 :=
  ⟨claim_C2.1 100 0 40 peakC2 50 (by norm_num) (by omega),
   claim_C2.2 50 (by norm_num) (by norm_num)⟩

/-- The C4 scenario configuration on n bins: integration on, constant
polynomial background c0 = 2, no peaks, noise none. -/
def cfgC4 (n : ℕ) : Frame1DConfig :=
  ⟨n, true, ⟨BgType.polynomial, 2, 0, 0, 0, 0⟩, [], 0, 0, noiseNone⟩

/-- Claim C4: with integration enabled and no reset pending, two
successive frames of the constant background c0 = 2 (no peaks, no noise)
leave every bin of an initially zeroed buffer at 4: the background
accumulates instead of overwriting. -/
theorem claim_C4 : ∀ (n bin : ℕ) (s1 s2 : ℕ → ℝ),
    computeDataT (cfgC4 n) false s2
      (computeDataT (cfgC4 n) false s1 (fun _ => 0)) bin = 4 := by
  intro n bin s1 s2
  simp [computeDataT, cfgC4, backgroundX, noiseContrib, noiseNone]
  norm_num

/-- Clamping an already clamped width is the identity. -/
theorem max_one_clamp (a : ℝ) : max 1 (max 1 a) = max 1 a :=
  max_eq_right (le_max_left 1 a)

/-- A nonpositive width clamps to exactly 1. -/
theorem max_one_of_nonpos {a : ℝ} (h : a ≤ 0) : max 1 a = 1 :=
  max_eq_left (h.trans zero_le_one)

/-- computeGaussian only reads its FWHM through the max(1,.) clamp. -/
theorem computeGaussian_clamp (pos fwhm x : ℝ) :
    computeGaussian pos (max 1 fwhm) x = computeGaussian pos fwhm x := by
  simp only [computeGaussian, max_one_clamp]

/-- computeLorentz only reads its FWHM through the max(1,.) clamp. -/
theorem computeLorentz_clamp (pos fwhm x : ℝ) :
    computeLorentz pos (max 1 fwhm) x = computeLorentz pos fwhm x := by
  simp only [computeLorentz, max_one_clamp]

/-- computePseudoVoigt only reads its FWHM through the max(1,.) clamp. -/
theorem computePseudoVoigt_clamp (pos fwhm x : ℝ) :
    computePseudoVoigt pos (max 1 fwhm) x = computePseudoVoigt pos fwhm x := by
  simp only [computePseudoVoigt, max_one_clamp, computeGaussian_clamp, computeLorentz_clamp]

/-- computeLaplace only reads its FWHM through the max(1,.) clamp. -/
theorem computeLaplace_clamp (pos fwhm x : ℝ) :
    computeLaplace pos (max 1 fwhm) x = computeLaplace pos fwhm x := by
  simp only [computeLaplace, max_one_clamp]

/-- computeTriangle only reads its FWHM through the max(1,.) clamp. -/
theorem computeTriangle_clamp (pos fwhm : ℝ) (bin : ℤ) :
    computeTriangle pos (max 1 fwhm) bin = computeTriangle pos fwhm bin := by
  simp only [computeTriangle, max_one_clamp]

/-- computeSquare only reads its FWHM through the max(1,.) clamp. -/
theorem computeSquare_clamp (pos fwhm : ℝ) (bin : ℤ) :
    computeSquare pos (max 1 fwhm) bin = computeSquare pos fwhm bin := by
  simp only [computeSquare, max_one_clamp]

/-- computeMoffat only reads its FWHM through the max(1,.) clamp. -/
theorem computeMoffat_clamp (pos fwhm p1 x : ℝ) :
    computeMoffat pos (max 1 fwhm) p1 x = computeMoffat pos fwhm p1 x := by
  simp only [computeMoffat, max_one_clamp]

/-- computeSmoothStep only reads its FWHM through the max(1,.) clamp. -/
theorem computeSmoothStep_clamp (pos fwhm x : ℝ) :
    computeSmoothStep pos (max 1 fwhm) x = computeSmoothStep pos fwhm x := by
  simp only [computeSmoothStep, max_one_clamp]

/-- computeGaussian2D only reads its FWHM inputs through max(1,.). -/
theorem computeGaussian2D_clamp (xp yp fx fy rho x y : ℝ) :
    computeGaussian2D xp yp (max 1 fx) (max 1 fy) rho x y =
      computeGaussian2D xp yp fx fy rho x y := by
  simp only [computeGaussian2D, max_one_clamp]

/-- computeLorentz2D only reads its FWHM input through max(1,.). -/
theorem computeLorentz2D_clamp (xp yp fwhm x y : ℝ) :
    computeLorentz2D xp yp (max 1 fwhm) x y = computeLorentz2D xp yp fwhm x y := by
  simp only [computeLorentz2D, max_one_clamp]

/-- computePseudoVoigt2D only reads its FWHM inputs through max(1,.). -/
theorem computePseudoVoigt2D_clamp (xp yp fx fy rho x y : ℝ) :
    computePseudoVoigt2D xp yp (max 1 fx) (max 1 fy) rho x y =
      computePseudoVoigt2D xp yp fx fy rho x y := by
  simp only [computePseudoVoigt2D, max_one_clamp, computeGaussian2D_clamp,
    computeLorentz2D_clamp]

/-- computeLaplace2D only reads its FWHM inputs through max(1,.). -/
theorem computeLaplace2D_clamp (xp yp fx fy rho x y : ℝ) :
    computeLaplace2D xp yp (max 1 fx) (max 1 fy) rho x y =
      computeLaplace2D xp yp fx fy rho x y := by
  simp only [computeLaplace2D, max_one_clamp]

/-- computePyramid2D only reads its FWHM inputs through max(1,.). -/
theorem computePyramid2D_clamp (xp yp fx fy : ℝ) (xb yb : ℤ) :
    computePyramid2D xp yp (max 1 fx) (max 1 fy) xb yb =
      computePyramid2D xp yp fx fy xb yb := by
  simp only [computePyramid2D, max_one_clamp]

/-- computeCone2D only reads its FWHM inputs through max(1,.). -/
theorem computeCone2D_clamp (xp yp fx fy x y : ℝ) :
    computeCone2D xp yp (max 1 fx) (max 1 fy) x y = computeCone2D xp yp fx fy x y := by
  simp only [computeCone2D, max_one_clamp]

/-- computeSquare2D only reads its FWHM inputs through max(1,.). -/
theorem computeSquare2D_clamp (xp yp fx fy : ℝ) (xb yb : ℤ) :
    computeSquare2D xp yp (max 1 fx) (max 1 fy) xb yb =
      computeSquare2D xp yp fx fy xb yb := by
  simp only [computeSquare2D, max_one_clamp]

/-- computeMoffat2D only reads its FWHM input through max(1,.). -/
theorem computeMoffat2D_clamp (xp yp fwhm p1 x y : ℝ) :
    computeMoffat2D xp yp (max 1 fwhm) p1 x y = computeMoffat2D xp yp fwhm p1 x y := by
  simp only [computeMoffat2D, max_one_clamp]

/-- computeSmoothStep2D only reads its FWHM inputs through max(1,.). -/
theorem computeSmoothStep2D_clamp (xp yp fx fy x y : ℝ) :
    computeSmoothStep2D xp yp (max 1 fx) (max 1 fy) x y =
      computeSmoothStep2D xp yp fx fy x y := by
  simp only [computeSmoothStep2D, max_one_clamp]

/-- Pre-clamping the 1D data FWHM leaves every 1D kernel unchanged. -/
theorem compute1D_clamp (d : PeaksData) (t : EType1D) :
    compute1D { d with fwhmX := max 1 d.fwhmX } t = compute1D d t := by
  cases t <;>
    simp [compute1D, computeGaussian_clamp, computeLorentz_clamp,
      computePseudoVoigt_clamp, computeLaplace_clamp, computeTriangle_clamp,
      computeSquare_clamp, computeMoffat_clamp, computeSmoothStep_clamp]

/-- Pre-clamping both 2D data FWHM values leaves every 2D kernel
unchanged. -/
theorem compute2D_clamp (d : PeaksData) (u : EType2D) :
    compute2D { d with fwhmX := max 1 d.fwhmX, fwhmY := max 1 d.fwhmY } u =
      compute2D d u := by
  cases u <;>
    simp [compute2D, computeGaussian2D_clamp, computeLorentz2D_clamp,
      computePseudoVoigt2D_clamp, computeLaplace2D_clamp, computePyramid2D_clamp,
      computeCone2D_clamp, computeSquare2D_clamp, computeMoffat2D_clamp,
      computeSmoothStep2D_clamp]

/-- Claim C7: every 1D and 2D kernel uses its FWHM inputs only through
the max(1.0, fwhm) clamp, so pre-clamping the descriptor changes nothing,
a descriptor with fwhm at most 0 evaluates exactly as the identical
descriptor with fwhm 1.0, and no width is rejected (the kernels are total
functions). -/
theorem claim_C7 : ∀ (d : PeaksData) (t : EType1D) (u : EType2D),
    compute1D { d with fwhmX := max 1 d.fwhmX } t = compute1D d t ∧
    compute2D { d with fwhmX := max 1 d.fwhmX, fwhmY := max 1 d.fwhmY } u =
      compute2D d u ∧
    (d.fwhmX ≤ 0 → compute1D { d with fwhmX := 1 } t = compute1D d t) ∧
    (d.fwhmX ≤ 0 → d.fwhmY ≤ 0 →
      compute2D { d with fwhmX := 1, fwhmY := 1 } u = compute2D d u) := by
  intro d t u
  refine ⟨compute1D_clamp d t, compute2D_clamp d u, fun h => ?_, fun hx hy => ?_⟩
  · have e := compute1D_clamp d t
    rw [max_one_of_nonpos h] at e
    exact e
  · have e := compute2D_clamp d u
    rw [max_one_of_nonpos hx, max_one_of_nonpos hy] at e
    exact e

/-- Concrete instances of claim C7: for a descriptor with FWHM values -2
and -3, replacing them by 1.0 leaves the gaussian kernels unchanged. -/
theorem claim_C7_witness :
    compute1D { (⟨0, 0, -2, -3, 1, 0, 1, 0, 0, 0⟩ : PeaksData) with fwhmX := 1 }
        EType1D.gaussian =
      compute1D ⟨0, 0, -2, -3, 1, 0, 1, 0, 0, 0⟩ EType1D.gaussian ∧
    compute2D { (⟨0, 0, -2, -3, 1, 0, 1, 0, 0, 0⟩ : PeaksData) with
        fwhmX := 1, fwhmY := 1 } EType2D.gaussian =
      compute2D ⟨0, 0, -2, -3, 1, 0, 1, 0, 0, 0⟩ EType2D.gaussian :=
  ⟨(claim_C7 ⟨0, 0, -2, -3, 1, 0, 1, 0, 0, 0⟩ EType1D.gaussian EType2D.gaussian).2.2.1
      (by norm_num),
   (claim_C7 ⟨0, 0, -2, -3, 1, 0, 1, 0, 0, 0⟩ EType1D.gaussian EType2D.gaussian).2.2.2
      (by norm_num) (by norm_num)⟩

/-- The gaussian kernel attains its maximum at the peak center. -/
theorem computeGaussian_le_center (pos fwhm x : ℝ) :
    computeGaussian pos fwhm x ≤ computeGaussian pos fwhm pos := by
  simp only [computeGaussian]
  have hf : (0 : ℝ) < max 1 fwhm := lt_of_lt_of_le one_pos (le_max_left 1 fwhm)
  have hs : (0 : ℝ) < max 1 fwhm / s_2s2l2 := div_pos hf (by norm_num [s_2s2l2])
  have hcoef : (0 : ℝ) ≤ 1 / (max 1 fwhm / s_2s2l2 * s_s2pi) := by
    have : (0 : ℝ) < max 1 fwhm / s_2s2l2 * s_s2pi := mul_pos hs (by norm_num [s_s2pi])
    positivity
  apply mul_le_mul_of_nonneg_left _ hcoef
  rw [Real.exp_le_exp]
  have h0 : -((pos - pos) * (pos - pos)) /
      (2 * (max 1 fwhm / s_2s2l2 * (max 1 fwhm / s_2s2l2))) = 0 := by
    rw [sub_self]
    ring
  rw [h0]
  apply div_nonpos_of_nonpos_of_nonneg
  · have := mul_self_nonneg (x - pos)
    linarith
  · positivity

/-- The lorentz kernel attains its maximum at the peak center. -/
theorem computeLorentz_le_center (pos fwhm x : ℝ) :
    computeLorentz pos fwhm x ≤ computeLorentz pos fwhm pos := by
  simp only [computeLorentz]
  have hf : (0 : ℝ) < max 1 fwhm := lt_of_lt_of_le one_pos (le_max_left 1 fwhm)
  have hγ : (0 : ℝ) < max 1 fwhm / 2 := by positivity
  have hcoef : (0 : ℝ) ≤ 1 / (Real.pi * (max 1 fwhm / 2)) := by
    have := Real.pi_pos
    positivity
  apply mul_le_mul_of_nonneg_left _ hcoef
  have hnum : (0 : ℝ) ≤ max 1 fwhm / 2 * (max 1 fwhm / 2) := by positivity
  have hden : (0 : ℝ) < (pos - pos) * (pos - pos) + max 1 fwhm / 2 * (max 1 fwhm / 2) := by
    rw [sub_self, zero_mul, zero_add]
    exact mul_pos hγ hγ
  apply div_le_div_of_nonneg_left hnum hden
  have := mul_self_nonneg (x - pos)
  linarith

/-- The laplace kernel attains its maximum at the peak center. -/
theorem computeLaplace_le_center (pos fwhm x : ℝ) :
    computeLaplace pos fwhm x ≤ computeLaplace pos fwhm pos := by
  simp only [computeLaplace]
  have hf : (0 : ℝ) < max 1 fwhm := lt_of_lt_of_le one_pos (le_max_left 1 fwhm)
  have hb : (0 : ℝ) < max 1 fwhm / s_2l2 := div_pos hf (by norm_num [s_2l2])
  have hcoef : (0 : ℝ) ≤ 1 / (2 * (max 1 fwhm / s_2l2)) := by positivity
  apply mul_le_mul_of_nonneg_left _ hcoef
  rw [Real.exp_le_exp]
  have h0 : -(|pos - pos| / (max 1 fwhm / s_2l2)) = 0 := by
    rw [sub_self, abs_zero, zero_div, neg_zero]
  rw [h0]
  have habs : (0 : ℝ) ≤ |x - pos| / (max 1 fwhm / s_2l2) := by positivity
  linarith

/-- A fifth power followed by the 0.2 real power is the identity on
nonnegative reals. -/
theorem rpow_fifth_root (a : ℝ) (ha : 0 ≤ a) : (a ^ 5) ^ ((0.2 : ℝ)) = a := by
  rw [← Real.rpow_natCast a 5, ← Real.rpow_mul ha]
  norm_num

/-- With equal Gaussian and Lorentz FWHM inputs of at least 1, the
Thompson-Cox-Hastings mixing fraction eta lies in [0, 1]: the width ratio
collapses to the constant 11.67117^(-1/5), which lies in [1/1.7, 1/1.6],
and the cubic eta polynomial maps that interval into [0, 1]. -/
theorem pseudoVoigtEta_self_mem (f : ℝ) (hf : 1 ≤ f) :
    0 ≤ computePseudoVoigtEta f f ∧ computePseudoVoigtEta f f ≤ 1 := by
  have hf0 : (0 : ℝ) < f := lt_of_lt_of_le one_pos hf
  have hsum : f ^ 5 + s_pv_p1 * f ^ 4 * f + s_pv_p2 * f ^ 3 * f ^ 2 +
      s_pv_p3 * f ^ 2 * f ^ 3 + s_pv_p4 * f * f ^ 4 + f ^ 5 =
      (11.67117 : ℝ) * f ^ 5 := by
    simp only [s_pv_p1, s_pv_p2, s_pv_p3, s_pv_p4]
    ring
  have hK : ((11.67117 : ℝ) * f ^ 5) ^ ((0.2 : ℝ)) =
      (11.67117 : ℝ) ^ ((0.2 : ℝ)) * f := by
    rw [Real.mul_rpow (by norm_num) (by positivity), rpow_fifth_root f hf0.le]
  have hc16 : (1.6 : ℝ) ≤ (11.67117 : ℝ) ^ ((0.2 : ℝ)) := by
    have h1 : ((1.6 : ℝ) ^ 5) ^ ((0.2 : ℝ)) = 1.6 := rpow_fifth_root 1.6 (by norm_num)
    calc (1.6 : ℝ) = ((1.6 : ℝ) ^ 5) ^ ((0.2 : ℝ)) := h1.symm
      _ ≤ (11.67117 : ℝ) ^ ((0.2 : ℝ)) :=
          Real.rpow_le_rpow (by positivity) (by norm_num) (by norm_num)
  have hc17 : (11.67117 : ℝ) ^ ((0.2 : ℝ)) ≤ (1.7 : ℝ) := by
    have h1 : ((1.7 : ℝ) ^ 5) ^ ((0.2 : ℝ)) = 1.7 := rpow_fifth_root 1.7 (by norm_num)
    calc (11.67117 : ℝ) ^ ((0.2 : ℝ)) ≤ ((1.7 : ℝ) ^ 5) ^ ((0.2 : ℝ)) :=
          Real.rpow_le_rpow (by norm_num) (by norm_num) (by norm_num)
      _ = 1.7 := h1
  have hc0 : (0 : ℝ) < (11.67117 : ℝ) ^ ((0.2 : ℝ)) :=
    lt_of_lt_of_le (by norm_num) hc16
  have hr : f / ((11.67117 : ℝ) ^ ((0.2 : ℝ)) * f) =
      1 / (11.67117 : ℝ) ^ ((0.2 : ℝ)) := by
    rw [mul_comm, ← div_div, div_self hf0.ne']
  simp only [computePseudoVoigtEta, s_pv_e1, s_pv_e2, s_pv_e3]
  rw [hsum, hK, hr]
  have hr1 : 1 / (1.7 : ℝ) ≤ 1 / (11.67117 : ℝ) ^ ((0.2 : ℝ)) :=
    one_div_le_one_div_of_le hc0 hc17
  have hr2 : 1 / (11.67117 : ℝ) ^ ((0.2 : ℝ)) ≤ 1 / (1.6 : ℝ) :=
    one_div_le_one_div_of_le (by norm_num) hc16
  set r : ℝ := 1 / (11.67117 : ℝ) ^ ((0.2 : ℝ)) with hrdef
  have hr0 : 0 < r := by positivity
  have hmul1 : 0 ≤ (1 / (1.6 : ℝ) - r) * r := by nlinarith
  have hmul2 : 0 ≤ (1 / (1.6 : ℝ) - r) * r * r := by nlinarith
  constructor
  · nlinarith [hr0, hr2, hmul1, hmul2, mul_pos (mul_pos hr0 hr0) hr0]
  · nlinarith [hr0, hr1, hr2, hmul1, hmul2, mul_pos hr0 hr0,
      mul_pos (mul_pos hr0 hr0) hr0]

/-- The pseudo-Voigt kernel attains its maximum at the peak center: it is
a convex combination of the gaussian and lorentz kernels because its
mixing fraction lies in [0, 1]. -/
theorem computePseudoVoigt_le_center (pos fwhm x : ℝ) :
    computePseudoVoigt pos fwhm x ≤ computePseudoVoigt pos fwhm pos := by
  simp only [computePseudoVoigt]
  obtain ⟨h0, h1⟩ := pseudoVoigtEta_self_mem (max 1 fwhm) (le_max_left 1 fwhm)
  have h1' : 0 ≤ 1 - computePseudoVoigtEta (max 1 fwhm) (max 1 fwhm) := by linarith
  exact add_le_add
    (mul_le_mul_of_nonneg_left (computeGaussian_le_center pos fwhm x) h1')
    (mul_le_mul_of_nonneg_left (computeLorentz_le_center pos fwhm x) h0)

/-- The moffat kernel attains its maximum at the peak center whenever the
zero-checked shape exponent beta is at least 1: the normalization
coefficient (beta-1)/(pi alpha^2) is then nonnegative and the radial
factor is at most its center value 1. -/
theorem computeMoffat_le_center (pos fwhm p1 x : ℝ) (hβ : 1 ≤ zeroCheck p1) :
    computeMoffat pos fwhm p1 x ≤ computeMoffat pos fwhm p1 pos := by
  simp only [computeMoffat]
  have hβ0 : (0 : ℝ) < zeroCheck p1 := lt_of_lt_of_le one_pos hβ
  have h2β : 1 < (2 : ℝ) ^ (1 / zeroCheck p1) := by
    rw [Real.one_lt_rpow_iff_of_pos (by norm_num)]
    left
    exact ⟨by norm_num, by positivity⟩
  have hs : 0 < Real.sqrt ((2 : ℝ) ^ (1 / zeroCheck p1) - 1) :=
    Real.sqrt_pos.mpr (by linarith)
  have hf : (0 : ℝ) < max 1 fwhm := lt_of_lt_of_le one_pos (le_max_left 1 fwhm)
  have hα0 : 0 < max 1 fwhm / (2 * Real.sqrt ((2 : ℝ) ^ (1 / zeroCheck p1) - 1)) :=
    div_pos hf (by positivity)
  set α : ℝ := max 1 fwhm / (2 * Real.sqrt ((2 : ℝ) ^ (1 / zeroCheck p1) - 1))
  have hα2 : 0 < α * α := mul_pos hα0 hα0
  have hπ := Real.pi_pos
  have hcoef : 0 ≤ (zeroCheck p1 - 1) / (Real.pi * (α * α)) :=
    div_nonneg (by linarith) (by positivity)
  have hcen : (1 : ℝ) + (pos - pos) * (pos - pos) / (α * α) = 1 := by
    rw [sub_self, zero_mul, zero_div, add_zero]
  rw [hcen, Real.one_rpow, mul_one]
  have hbase : (1 : ℝ) ≤ 1 + (x - pos) * (x - pos) / (α * α) :=
    le_add_of_nonneg_right (div_nonneg (mul_self_nonneg _) hα2.le)
  have hpow : (1 + (x - pos) * (x - pos) / (α * α)) ^ (-zeroCheck p1) ≤ 1 :=
    Real.rpow_le_one_of_one_le_of_nonpos hbase (by linarith)
  calc (zeroCheck p1 - 1) / (Real.pi * (α * α)) *
        (1 + (x - pos) * (x - pos) / (α * α)) ^ (-zeroCheck p1)
      ≤ (zeroCheck p1 - 1) / (Real.pi * (α * α)) * 1 :=
        mul_le_mul_of_nonneg_left hpow hcoef
    _ = (zeroCheck p1 - 1) / (Real.pi * (α * α)) := mul_one _

/-- Claim C5, as amended: for every descriptor and every coordinate, the
gaussian, lorentz, pseudo-voigt and laplace kernels attain their maximum
at the peak center; the moffat kernel does so for every descriptor whose
zero-checked shape exponent p1 is at least 1 (for 0 < p1 < 1 its center
is in fact a strict minimum). -/
theorem claim_C5 : ∀ (pos fwhm p1 x : ℝ),
    computeGaussian pos fwhm x ≤ computeGaussian pos fwhm pos ∧
    computeLorentz pos fwhm x ≤ computeLorentz pos fwhm pos ∧
    computePseudoVoigt pos fwhm x ≤ computePseudoVoigt pos fwhm pos ∧
    computeLaplace pos fwhm x ≤ computeLaplace pos fwhm pos ∧
    (1 ≤ zeroCheck p1 → computeMoffat pos fwhm p1 x ≤ computeMoffat pos fwhm p1 pos) :=
  fun pos fwhm p1 x =>
    ⟨computeGaussian_le_center pos fwhm x, computeLorentz_le_center pos fwhm x,
     computePseudoVoigt_le_center pos fwhm x, computeLaplace_le_center pos fwhm x,
     fun h => computeMoffat_le_center pos fwhm p1 x h⟩

/-- Claim C5 as stated is false: for the moffat descriptor with pos 0,
FWHM 1 and shape exponent p1 = 0.5 the kernel value at the center is
strictly below its value at offset 1, so the center is not a maximum for
every descriptor. -/
theorem claim_C5_counterexample :
    computeMoffat 0 1 0.5 0 < computeMoffat 0 1 0.5 1 := by
  have hz : zeroCheck 0.5 = 0.5 := zeroCheck_eq_self
    (by rw [show |(0.5 : ℝ)| = 0.5 from abs_of_pos (by norm_num)]; norm_num [s_zeroCheck])
  have h2 : (2 : ℝ) ^ ((1 : ℝ) / (0.5 : ℝ)) = 4 := by
    rw [show (1 : ℝ) / (0.5 : ℝ) = ((2 : ℕ) : ℝ) by norm_num, Real.rpow_natCast]
    norm_num
  have h41 : (4 : ℝ) - 1 = 3 := by norm_num
  simp only [computeMoffat, hz, h2, h41, max_self]
  have hs2 : Real.sqrt 3 * Real.sqrt 3 = 3 := Real.mul_self_sqrt (by norm_num)
  have hs0 : 0 < Real.sqrt 3 := Real.sqrt_pos.mpr (by norm_num)
  have hα2 : (1 : ℝ) / (2 * Real.sqrt 3) * ((1 : ℝ) / (2 * Real.sqrt 3)) = 1 / 12 := by
    rw [div_mul_div_comm]
    rw [show (2 * Real.sqrt 3) * (2 * Real.sqrt 3) = 4 * (Real.sqrt 3 * Real.sqrt 3) by ring]
    rw [hs2]
    norm_num
  rw [hα2]
  have hb1 : (1 : ℝ) + (0 - 0) * (0 - 0) / (1 / 12) = 1 := by norm_num
  have hb2 : (1 : ℝ) + (1 - 0) * (1 - 0) / (1 / 12) = 13 := by norm_num
  rw [hb1, hb2, Real.one_rpow]
  have hπ := Real.pi_pos
  have hc : (0.5 - 1 : ℝ) / (Real.pi * (1 / 12)) < 0 :=
    div_neg_of_neg_of_pos (by norm_num) (by positivity)
  have ht0 : 0 < (13 : ℝ) ^ (-(0.5 : ℝ)) := Real.rpow_pos_of_pos (by norm_num) _
  have ht1 : (13 : ℝ) ^ (-(0.5 : ℝ)) < 1 :=
    Real.rpow_lt_one_of_one_lt_of_neg (by norm_num) (by norm_num)
  nlinarith [mul_pos (neg_pos.mpr hc) (sub_pos.mpr ht1)]

/-- Concrete instances of claim C5: for pos 0, FWHM 2, shape exponent 5,
every listed kernel value at offset 1 is bounded by its center value. -/
theorem claim_C5_witness :
    computeGaussian 0 2 1 ≤ computeGaussian 0 2 0 ∧
    computeLorentz 0 2 1 ≤ computeLorentz 0 2 0 ∧
    computePseudoVoigt 0 2 1 ≤ computePseudoVoigt 0 2 0 ∧
    computeLaplace 0 2 1 ≤ computeLaplace 0 2 0 ∧
    computeMoffat 0 2 5 1 ≤ computeMoffat 0 2 5 0 :=
  ⟨(claim_C5 0 2 5 1).1, (claim_C5 0 2 5 1).2.1, (claim_C5 0 2 5 1).2.2.1,
   (claim_C5 0 2 5 1).2.2.2.1,
   (claim_C5 0 2 5 1).2.2.2.2
     (by rw [zeroCheck_eq_self
          (by rw [show |(5 : ℝ)| = 5 from abs_of_pos (by norm_num)];
              norm_num [s_zeroCheck])]
         norm_num)⟩

end

end ADSimPeaks
